import Mathlib

/-!
Verification of the report-generator reconciliation engine.

The repository holds three engine variants sharing one design:
`report_maker.py` (namespace `RM`), `report_maker_gcs.py` (namespace `GCS`)
and `report_maker_consolidated.py` (namespace `RMC`).  Cells, rows and
dataframes are embedded shallowly; Python string primitives (`str`,
`strip`, `lower`, `startswith`, substring membership) are modelled as
executable Lean functions on `String`/`List Char`.
-/

namespace ReportGen

/-- A spreadsheet cell as pandas delivers it: a string, an integer, or a
missing value (Python `None` / float NaN). -/
inductive Cell where
  | str (s : String)
  | num (n : Int)
  | na
deriving DecidableEq, Repr

/-- The opening brace character, by code point. -/
def lbrace : Char := Char.ofNat 123

/-- The closing brace character, by code point. -/
def rbrace : Char := Char.ofNat 125

/-- Python `str()` of a cell value (`astype(str)` renders NaN as "nan"). -/
def pyStr : Cell → String
  | .str s => s
  | .num n => toString n
  | .na => "nan"

/-- Python `str.strip()` on a character list: whitespace removed from both
ends. -/
def pyStripList (l : List Char) : List Char :=
  ((l.dropWhile Char.isWhitespace).reverse.dropWhile Char.isWhitespace).reverse

/-- Python `str.strip()`. -/
def pyStrip (s : String) : String := ⟨pyStripList s.data⟩

/-- Python `str.lower()` (ASCII case folding, as used on the flag tokens). -/
def pyLower (s : String) : String := ⟨s.data.map Char.toLower⟩

/-- Python `str.startswith(pat)`. -/
def pyStartsWith (s pat : String) : Bool := pat.data.isPrefixOf s.data

/-- Containment of `pat` as a contiguous sublist. -/
def listContainsSub (pat : List Char) : List Char → Bool
  | [] => pat.isEmpty
  | c :: cs => pat.isPrefixOf (c :: cs) || listContainsSub pat cs

/-- Python `pat in s` (substring membership). -/
def strContainsSub (s pat : String) : Bool := listContainsSub pat.data s.data

/-- Python `c.replace("_", " ")`. -/
def pyReplaceUnderscore (s : String) : String :=
  ⟨s.data.map (fun ch => if ch = '_' then ' ' else ch)⟩

/-- The `norm_str` helper shared verbatim by all three variants:
`None`/NaN become `""`, anything else is `str(v).strip()`. -/
def norm_str : Cell → String
  | .na => ""
  | v => pyStrip (pyStr v)

/-- A row: the ordered mapping column name to cell value (`pd.Series`). -/
def Row := List (String × Cell)
deriving DecidableEq, Repr

/-- Look a column up in a row (`row[c]`; every use in the source guards the
column's presence, so the default `na` is never observable there). -/
def rowGet (r : Row) (c : String) : Cell :=
  match r.find? (fun p => p.1 == c) with
  | some p => p.2
  | none => .na

/-- Column names of a row in order (`row.index`). -/
def rowCols (r : Row) : List String := r.map Prod.fst

/-- The `non_id_columns` helper: every column name other than the id column. -/
def non_id_columns (r : Row) (id_col : String) : List String :=
  (rowCols r).filter (fun c => c ≠ id_col)

/-- A dataframe: ordered column names plus ordered rows. -/
structure DataFrame where
  cols : List String
  rows : List Row
deriving DecidableEq, Repr

/-- Marker test shared by every variant's `is_failed_pattern`: the lowered
string starts with a failure/error/exception marker. -/
def failed_marker (s : String) : Bool :=
  pyStartsWith s "failed-" || pyStartsWith s "fail-" ||
    pyStartsWith s "error" || pyStartsWith s "exception"

/-- The `is_failed_pattern` helper (identical in all three variants). -/
def is_failed_pattern (v : Cell) : Bool := failed_marker (pyLower (norm_str v))

/-- The `pick_id_col` identifier resolver (identical in all variants): a
fixed-priority list of canonical names tried by stripped exact match (the
Python dict comprehension keeps the last column for a repeated stripped
name), then the first column whose lowered, underscore-to-space name
contains invoice/tracking/unique. -/
def PREFERRED_ID_COLS : List String :=
  ["Tracking_ID_OR_Unique_Key", "Tracking_ID", "Unique_Key",
   "Invoice No.", "Invoice_No", "Invoice", "Tracking ID"]

def pick_id_col (cols : List String) : Option String :=
  match PREFERRED_ID_COLS.findSome?
      (fun p => (cols.filter (fun c => pyStrip c == p)).getLast?) with
  | some c => some c
  | none =>
      cols.find? (fun c =>
        let cl := pyReplaceUnderscore (pyLower c)
        strContainsSub cl "invoice" || strContainsSub cl "tracking" ||
          strContainsSub cl "unique")

namespace GCS

/-- `POS_TOKENS` of report_maker_gcs.py, verbatim (the literal "Yes" entry
is in the source set even though membership is tested on a lowered
string). -/
def POS_TOKENS : List String :=
  ["yes", "y", "true", "1", "pass", "passed", "success", "ok", "Yes"]

/-- `NEG_TOKENS` of report_maker_gcs.py. -/
def NEG_TOKENS : List String :=
  ["no", "n", "false", "0", "fail", "failed", "na", "n/a",
   "not applicable", "none", ""]

/-- `is_yes` of report_maker_gcs.py. -/
def is_yes (v : Cell) : Bool := POS_TOKENS.contains (pyLower (norm_str v))

/-- `is_no` of report_maker_gcs.py. -/
def is_no (v : Cell) : Bool := NEG_TOKENS.contains (pyLower (norm_str v))

/-- `is_na` of report_maker_gcs.py. -/
def is_na (v : Cell) : Bool :=
  ["na", "n/a", "not applicable", "none", ""].contains (pyLower (norm_str v))

/-- `norm_id_series` composed with the row lookup: `astype(str)` then
strip. -/
def normId (c : Cell) : String := pyStrip (pyStr c)

/-- `first_row_for_id` of report_maker_gcs.py: the first row whose
identifier cell, as a stripped string, equals the stripped probe value. -/
def first_row_for_id (df : DataFrame) (id_col : String) (id_val : String) :
    Option Row :=
  df.rows.find? (fun r => normId (rowGet r id_col) == pyStrip id_val)

/-- `score_producer` of report_maker_gcs.py. -/
def score_producer (value : Cell) : String :=
  if is_yes value then "Pass"
  else if is_failed_pattern value || is_no value || is_na value ||
      (norm_str value == "") then "Fail"
  else "Fail"

/-- `score_consumer` of report_maker_gcs.py: a Negative or NotApplicable
applicable flag scores Fail. -/
def score_consumer (applicable posted : Cell) : String :=
  if is_no applicable || is_na applicable then "Fail"
  else if is_yes applicable && is_yes posted then "Pass"
  else if is_failed_pattern applicable || is_failed_pattern posted then "Fail"
  else "Fail"

/-- `score_comparator_classic_value` of report_maker_gcs.py. -/
def score_comparator_classic_value (val : Cell) : String :=
  if POS_TOKENS.contains (pyLower (norm_str val)) then "Pass"
  else if ["na", "n/a", "missing"].contains (pyLower (norm_str val)) then "NA"
  else if NEG_TOKENS.contains (pyLower (norm_str val)) ||
      is_failed_pattern (.str (pyLower (norm_str val))) then "Fail"
  else "Fail"

/-- `score_comparator_json_status` of report_maker_gcs.py. -/
def score_comparator_json_status (status_val : Cell) : String :=
  if POS_TOKENS.contains (pyLower (norm_str status_val)) then "Pass"
  else if NEG_TOKENS.contains (pyLower (norm_str status_val)) ||
      is_failed_pattern (.str (pyLower (norm_str status_val))) then "Fail"
  else "Fail"

/-- `score_all_yes` of report_maker_gcs.py. -/
def score_all_yes (row : Row) (id_col : String) : String :=
  if (non_id_columns row id_col).all (fun c => is_yes (rowGet row c)) then
    "Pass"
  else "Fail"

/-- `_is_flag_value` of report_maker_gcs.py: blank is not a flag; a flag is
a positive token, one of the listed negative/NA tokens, or an explicit
failure marker. -/
def is_flag_value (v : String) : Bool :=
  let s := pyLower (pyStrip v)
  if s == "" then false
  else POS_TOKENS.contains s ||
    ["na", "n/a", "not applicable", "no", "n", "false", "0", "fail",
      "failed"].contains s ||
    is_failed_pattern (.str s)

/-- The negative token set tested inside `score_newrelic_row`. -/
def NR_NEG : List String :=
  ["no", "n", "false", "0", "fail", "failed", "na", "n/a", "not applicable"]

/-- The loop of `score_newrelic_row`, one column name at a time, carrying
the `saw_positive` accumulator. -/
def score_newrelic_go (row : Row) : List String → Bool → String
  | [], sawPos => if sawPos then "Pass" else "Fail"
  | c :: rest, sawPos =>
    if !is_flag_value (pyLower (norm_str (rowGet row c))) then
      score_newrelic_go row rest sawPos
    else if is_failed_pattern (.str (pyLower (norm_str (rowGet row c)))) ||
        NR_NEG.contains (pyLower (norm_str (rowGet row c))) then "Fail"
    else if POS_TOKENS.contains (pyLower (norm_str (rowGet row c))) then
      score_newrelic_go row rest true
    else score_newrelic_go row rest sawPos

/-- `score_newrelic_row` of report_maker_gcs.py. -/
def score_newrelic_row (row : Row) (id_col : String) : String :=
  score_newrelic_go row (non_id_columns row id_col) false

/-- Consume `pat` case-insensitively from the front of `s`
(`re` matching of a literal under IGNORECASE); `none` when it does not
fit. -/
def dropCI (pat : List Char) (s : List Char) : Option (List Char) :=
  match pat, s with
  | [], rest => some rest
  | p :: ps, c :: cs => if c.toLower = p then dropCI ps cs else none
  | _ :: _, [] => none

/-- An optional case-insensitive literal (`(?:ed)?`): consume it when it
fits, else leave the input unchanged.  For the `_BRACED_FAIL` pattern the
greedy choice never needs backtracking, so this is the regex's behaviour. -/
def tryCI (pat : List Char) (s : List Char) : List Char :=
  match dropCI pat s with
  | some r => r
  | none => s

/-- A separator character of the pattern's `[-_\s]?` class. -/
def isSepChar (c : Char) : Bool := c = '-' || c = '_' || c.isWhitespace

/-- The pattern's optional single separator. -/
def dropSep : List Char → List Char
  | [] => []
  | c :: cs => if isSepChar c then cs else c :: cs

/-- The non-greedy capture `\x7b(.*?)\x7d` under DOTALL: everything up to
the first closing brace, `none` when no closing brace follows. -/
def captureToBrace : List Char → Option (List Char)
  | [] => none
  | c :: cs => if c = rbrace then some [] else (captureToBrace cs).map (c :: ·)

/-- The alphabetic tag run followed by the opening brace and the capture. -/
def afterTag (s : List Char) : Option (List Char) :=
  match s.dropWhile Char.isAlpha with
  | c :: rest => if c = lbrace then captureToBrace rest else none
  | [] => none

/-- The `_BRACED_FAIL` regex of report_maker_gcs.py,
`^fail(?:ed)?[-_\s]?[a-z]*\x7b(.*?)\x7d` with IGNORECASE and DOTALL, as a
deterministic parser returning the capture group. -/
def bracedFail (s : List Char) : Option (List Char) :=
  match dropCI ['f', 'a', 'i', 'l'] s with
  | none => none
  | some s1 => afterTag (dropSep (tryCI ['e', 'd'] s1))

/-- The `re.sub(r"^fail(?:ed)?[:\-\s_]*", "", raw)` marker strip. -/
def stripFailMarker (s : List Char) : List Char :=
  match dropCI ['f', 'a', 'i', 'l'] s with
  | none => s
  | some s1 =>
      (tryCI ['e', 'd'] s1).dropWhile
        (fun c => c = ':' || c = '-' || c = '_' || c.isWhitespace)

/-- `maybe_reason_from_value` of report_maker_gcs.py: the braced capture
(trimmed) when the value matches `_BRACED_FAIL`; else the marker-stripped
text for a `failed`/`fail-` start; else the full text for an
`error`/`exception` start; else no reason. -/
def maybe_reason_from_value (value : Cell) : Option String :=
  let raw := norm_str value
  if raw = "" then none
  else
    let low := pyLower raw
    match bracedFail raw.data with
    | some cap => some (pyStrip ⟨cap⟩)
    | none =>
      if pyStartsWith low "failed" || pyStartsWith low "fail-" then
        let after := pyStrip ⟨stripFailMarker raw.data⟩
        some (if after = "" then raw else after)
      else if pyStartsWith low "error" || pyStartsWith low "exception" then
        some raw
      else none

/-- Find the first column of a row whose name satisfies a predicate
(`next((c for c in row.index if p(c)), None)`). -/
def find_col (r : Row) (p : String → Bool) : Option String :=
  (rowCols r).find? p

/-- `eval_row_for_kind` of report_maker_gcs.py: the per-kind verdict and
reason list for a matched row, `("Fail", [])` when the row or the
identifier column is absent. -/
def eval_row_for_kind (kind : String) (row : Option Row)
    (id_col : Option String) : String × List String :=
  match row, id_col with
  | some r, some ic =>
    if kind = "producer" then
      let pcol := find_col r (fun c =>
        pyStartsWith (pyLower c) "posted_to_producer_topic")
      let val : Cell := match pcol with
        | some c => rowGet r c
        | none => .na
      (score_producer val,
        match maybe_reason_from_value val with
        | some rtxt => [(pcol.getD "Posted_To_Producer_Topic?") ++ "=" ++ rtxt]
        | none => [])
    else if kind = "consumer" then
      let app_col := find_col r (fun c =>
        strContainsSub (pyLower c) "applicable_for_consumer_topic")
      let post_col := find_col r (fun c =>
        strContainsSub (pyLower c) "posted_to_consumer_topic")
      let app_val : Cell := match app_col with
        | some c => rowGet r c
        | none => .na
      let post_val : Cell := match post_col with
        | some c => rowGet r c
        | none => .na
      let status := score_consumer app_val post_val
      let reasons :=
        (match maybe_reason_from_value app_val with
          | some rr => [(app_col.getD "Applicable") ++ "=" ++ rr]
          | none => []) ++
        (match maybe_reason_from_value post_val with
          | some rr => [(post_col.getD "Posted") ++ "=" ++ rr]
          | none => [])
      (status, reasons)
    else if kind = "comparator" then
      let cmp_col := find_col r (fun c =>
        strContainsSub (pyLower c) "expected" &&
        strContainsSub (pyLower c) "observed" &&
        strContainsSub (pyLower c) "match")
      match cmp_col with
      | some cc =>
        let v := rowGet r cc
        let status := score_comparator_classic_value v
        (status,
          match maybe_reason_from_value v with
          | some rr => [cc ++ "=" ++ rr]
          | none => [])
      | none =>
        let status := score_all_yes r ic
        (status,
          if status ≠ "Pass" then
            (non_id_columns r ic).filterMap (fun c =>
              (maybe_reason_from_value (rowGet r c)).map (c ++ "=" ++ ·))
          else [])
    else if kind = "json_comparator" ∨ kind = "file_comparator" then
      let status_col := find_col r (fun c => pyLower c == "status")
      let reason_col := find_col r (fun c =>
        ["reason", "details", "diff"].contains (pyLower c))
      match status_col with
      | some sc =>
        let status_val := rowGet r sc
        let status := score_comparator_json_status status_val
        let rs1 := match maybe_reason_from_value status_val with
          | some rr => [sc ++ "=" ++ rr]
          | none => []
        let rs2 :=
          if status ≠ "Pass" then
            match reason_col with
            | some rc =>
              let t := norm_str (rowGet r rc)
              if t ≠ "" then [rc ++ "=" ++ t] else []
            | none => []
          else []
        (status, rs1 ++ rs2)
      | none =>
        let status := score_all_yes r ic
        (status,
          if status ≠ "Pass" then
            (non_id_columns r ic).filterMap (fun c =>
              (maybe_reason_from_value (rowGet r c)).map (c ++ "=" ++ ·))
          else [])
    else
      let status := score_newrelic_row r ic
      (status,
        if status ≠ "Pass" then
          (non_id_columns r ic).filterMap (fun c =>
            (maybe_reason_from_value (rowGet r c)).map (c ++ "=" ++ ·))
        else [])
  | _, _ => ("Fail", [])

/-- The per-entity cell of `build_report_for_file` in report_maker_gcs.py:
the status and reason list one invoice gets against one configured source
file (the caller passes the invoice already stripped). -/
def buildReportCell (key : String) (kind : String)
    (df_file : Option DataFrame) (inv : String) : String × List String :=
  match df_file with
  | none => ("Fail", ["File missing or unreadable"])
  | some df =>
    match pick_id_col df.cols with
    | none => ("Fail", ["ID column not found"])
    | some ic =>
      match df.rows.find? (fun r => normId (rowGet r ic) == inv) with
      | none => ("Fail", ["Invoice " ++ inv ++ " missing in " ++ key])
      | some r => eval_row_for_kind kind (some r) (some ic)

end GCS

namespace RM

/-- `is_yes` of report_maker.py: only the four tokens yes/y/true/1. -/
def is_yes (v : Cell) : Bool :=
  ["yes", "y", "true", "1"].contains (pyLower (norm_str v))

/-- `is_no` of report_maker.py. -/
def is_no (v : Cell) : Bool :=
  ["no", "n", "false", "0"].contains (pyLower (norm_str v))

/-- `is_na` of report_maker.py. -/
def is_na (v : Cell) : Bool :=
  ["na", "n/a", "not applicable", "none", ""].contains (pyLower (norm_str v))

/-- `detect_kind_from_key` of report_maker.py. -/
def detect_kind_from_key (key : String) : String :=
  let k := pyLower key
  if strContainsSub k "json_comparator" then "json_comparator"
  else if strContainsSub k "comparator" then "comparator"
  else if strContainsSub k "producer" then "producer"
  else if strContainsSub k "consumer" then "consumer"
  else if strContainsSub k "newrelic" || strContainsSub k "new_relic" then
    "newrelic"
  else "newrelic"

/-- `first_row_for_id` of report_maker.py: raw pandas equality of the
identifier cell against the probe string — a match only when the cell is a
string exactly equal to the probe, with no trimming and no numeric
coercion. -/
def first_row_for_id (df : DataFrame) (id_col : String) (id_val : String) :
    Option Row :=
  df.rows.find? (fun r =>
    match rowGet r id_col with
    | .str t => t == id_val
    | _ => false)

/-- `score_producer` of report_maker.py. -/
def score_producer (value : Cell) : String :=
  if is_yes value then "Pass"
  else if is_failed_pattern value || is_no value || is_na value ||
      (norm_str value == "") then "Fail"
  else "Fail"

/-- `score_consumer` of report_maker.py: a Negative applicable flag scores
NA (not Fail). -/
def score_consumer (applicable posted : Cell) : String :=
  if is_no applicable then "NA"
  else if is_yes applicable && is_yes posted then "Pass"
  else if is_failed_pattern applicable || is_failed_pattern posted then "Fail"
  else "Fail"

/-- `score_comparator_classic_value` of report_maker.py. -/
def score_comparator_classic_value (val : Cell) : String :=
  let s := pyLower (norm_str val)
  if s == "yes" then "Pass"
  else if ["na", "n/a", "missing"].contains s then "NA"
  else if s == "no" || is_failed_pattern (.str s) then "Fail"
  else "Fail"

/-- `score_comparator_json_status` of report_maker.py. -/
def score_comparator_json_status (status_val : Cell) : String :=
  let s := pyLower (norm_str status_val)
  if ["yes", "y", "true", "1", "pass", "passed", "success", "ok"].contains s
    then "Pass"
  else if ["no", "n", "false", "0", "fail", "failed", "error", ""].contains s
      || is_failed_pattern (.str s) then "Fail"
  else "Fail"

/-- `score_all_yes` of report_maker.py (built on this variant's four-token
`is_yes`). -/
def score_all_yes (row : Row) (id_col : String) : String :=
  if (non_id_columns row id_col).all (fun c => is_yes (rowGet row c)) then
    "Pass"
  else "Fail"

/-- `maybe_reason_from_value` of report_maker.py: the full normalized text
when it carries an explicit failure marker, else nothing. -/
def maybe_reason_from_value (value : Cell) : Option String :=
  let s := norm_str value
  if s = "" then none
  else if is_failed_pattern (.str s) then some s
  else none

/-- The per-kind block of report_maker.py's consolidate loop for one
matched row: verdict plus the explicit reasons collected for that source
key. -/
def score_row (kind : String) (r : Row) (invc : String) :
    String × List String :=
  if kind = "consumer" then
    let app_col := GCS.find_col r (fun c =>
      strContainsSub (pyLower c) "applicable_for_consumer_topic")
    let post_col := GCS.find_col r (fun c =>
      strContainsSub (pyLower c) "posted_to_consumer_topic")
    let app_val : Cell := match app_col with
      | some c => rowGet r c
      | none => .na
    let post_val : Cell := match post_col with
      | some c => rowGet r c
      | none => .na
    let status := score_consumer app_val post_val
    let reasons :=
      (match maybe_reason_from_value app_val with
        | some rr => ["Applicable=" ++ rr]
        | none => []) ++
      (match maybe_reason_from_value post_val with
        | some rr => ["Posted=" ++ rr]
        | none => [])
    (status, reasons)
  else if kind = "comparator" then
    let cmp_col := GCS.find_col r (fun c =>
      strContainsSub (pyLower c) "expected" &&
      strContainsSub (pyLower c) "observed" &&
      strContainsSub (pyLower c) "match")
    match cmp_col with
    | some cc =>
      let v := rowGet r cc
      (score_comparator_classic_value v,
        match maybe_reason_from_value v with
        | some rr => [cc ++ "=" ++ rr]
        | none => [])
    | none =>
      let status := score_all_yes r invc
      (status,
        if status ≠ "Pass" then
          (non_id_columns r invc).filterMap (fun c =>
            (maybe_reason_from_value (rowGet r c)).map (c ++ "=" ++ ·))
        else [])
  else if kind = "json_comparator" then
    let status_col := GCS.find_col r (fun c => pyLower c == "status")
    let reason_col := GCS.find_col r (fun c => pyLower c == "reason")
    match status_col with
    | some sc =>
      let status_val := rowGet r sc
      let status := score_comparator_json_status status_val
      let rs1 := match maybe_reason_from_value status_val with
        | some rr => [sc ++ "=" ++ rr]
        | none => []
      let rs2 :=
        if status ≠ "Pass" then
          match reason_col with
          | some rc =>
            let t := norm_str (rowGet r rc)
            if t ≠ "" then [rc ++ "=" ++ t] else []
          | none => []
        else []
      (status, rs1 ++ rs2)
    | none =>
      let status := score_all_yes r invc
      (status,
        if status ≠ "Pass" then
          (non_id_columns r invc).filterMap (fun c =>
            (maybe_reason_from_value (rowGet r c)).map (c ++ "=" ++ ·))
        else [])
  else if kind = "producer" then
    let pcol := GCS.find_col r (fun c =>
      pyStartsWith (pyLower c) "posted_to_producer_topic")
    let val : Cell := match pcol with
      | some c => rowGet r c
      | none => .na
    (score_producer val,
      match maybe_reason_from_value val with
      | some rr => [(pcol.getD "Posted_To_Producer_Topic?") ++ "=" ++ rr]
      | none => [])
  else
    let status := score_all_yes r invc
    (status,
      if status ≠ "Pass" then
        (non_id_columns r invc).filterMap (fun c =>
          (maybe_reason_from_value (rowGet r c)).map (c ++ "=" ++ ·))
      else [])

/-- One (entity, source) cell of report_maker.py's consolidate loop
(lines 182-275): an unreadable file, a missing identifier column or a
missing row yields `("Fail", [])` — Fail with no diagnostic reason
appended — and a matched row is scored per kind. -/
def source_cell (df : Option DataFrame) (invc : Option String)
    (kind : String) (inv : String) : String × List String :=
  match df, invc with
  | some d, some ic =>
    if !d.cols.contains ic then ("Fail", [])
    else
      match first_row_for_id d ic inv with
      | none => ("Fail", [])
      | some r => score_row kind r ic
  | _, _ => ("Fail", [])

/-- The producer cell of report_maker.py's consolidate loop
(lines 169-179). -/
def producer_cell (dfp : DataFrame) (id_col : String)
    (prod_status_col : Option String) (inv : String) : String × List String :=
  match first_row_for_id dfp id_col inv with
  | none => ("Fail", [])
  | some r =>
    let val : Cell := match prod_status_col with
      | some c => if (rowCols r).contains c then rowGet r c else .na
      | none => .na
    (score_producer val,
      match maybe_reason_from_value val with
      | some rtxt => ["Posted_To_Producer_Topic?=" ++ rtxt]
      | none => [])

/-- The canonical entity list of consolidate:
`df_prod[id_col].dropna().astype(str).map(str).tolist()` — the identifier
column in row order with missing values dropped; no blank-string skipping
and no duplicate collapsing happen here. -/
def invoicesOf (df : DataFrame) (id_col : String) : List String :=
  ((df.rows.map (fun r => rowGet r id_col)).filter
    (fun c => c ≠ Cell.na)).map pyStr

/-- The final-verdict test of report_maker.py (lines 278-280): Pass iff
every per-source cell strips to "Pass". -/
def final_verdict (statuses : List String) : String :=
  if statuses.all (fun v => pyStrip v == "Pass") then "Pass" else "Fail"

/-- The Reason column rendering:
`"; ".join(f"k=[r1, r2]")` over the collected groups in insertion order. -/
def renderReasons (groups : List (String × List String)) : String :=
  String.intercalate "; "
    (groups.map (fun g => g.1 ++ "=[" ++ String.intercalate ", " g.2 ++ "]"))

/-- A report table: ordered column names plus ordered rows of string
cells. -/
structure ReportTable where
  columns : List String
  rows : List (List String)
deriving DecidableEq, Repr

/-- `consolidate` of report_maker.py with the I/O collaborator abstracted:
the producer dataframe (absent when unreadable) and the configured files in
order, each already loaded or absent.  The two fatal preconditions abort
with the script's messages; otherwise one report row is built per entry of
the entity list. -/
def consolidateRow (dfp : DataFrame) (id_col : String)
    (prod_status_col : Option String)
    (files : List (String × Option DataFrame)) (inv : String) : List String :=
  let pcell := producer_cell dfp id_col prod_status_col inv
  let cells := files.map (fun kf =>
    (kf.1, source_cell kf.2 (kf.2.bind (fun d => pick_id_col d.cols))
      (detect_kind_from_key kf.1) inv))
  let statuses := pcell.1 :: cells.map (fun kc => kc.2.1)
  let groups :=
    (if pcell.2.isEmpty then [] else [("producer", pcell.2)]) ++
    cells.filterMap (fun kc =>
      if kc.2.2.isEmpty then none else some (kc.1, kc.2.2))
  [inv, pcell.1] ++ cells.map (fun kc => kc.2.1) ++
    [final_verdict statuses, renderReasons groups]

/-- The row set of consolidate: one report row per entity-list entry. -/
def consolidateRows (dfp : DataFrame) (id_col : String)
    (files : List (String × Option DataFrame)) : List (List String) :=
  (invoicesOf dfp id_col).map
    (consolidateRow dfp id_col ((dfp.cols.filter (fun c =>
      pyStartsWith (pyLower c) "posted_to_producer_topic")).head?) files)

def consolidate (df_prod : Option DataFrame)
    (files : List (String × Option DataFrame)) : Except String ReportTable :=
  match df_prod with
  | none => .error "Producer file not found or unreadable"
  | some dfp =>
    match pick_id_col dfp.cols with
    | none => .error "Could not detect Tracking/Invoice column in producer file"
    | some id_col =>
      .ok ⟨["Invoice No.", "producer"] ++ files.map Prod.fst ++
        ["Final Result", "Reason"], consolidateRows dfp id_col files⟩

end RM

namespace RMC

/-- `final_result` of report_maker_consolidated.py (lines 195-197): the
per-source cells are normalized, and the row passes iff the list is
nonempty and every value equals "Pass". -/
def final_result (cells : List Cell) : String :=
  if (!(cells.map norm_str).isEmpty) &&
      (cells.map norm_str).all (fun v => v == "Pass") then "Pass"
  else "Fail"

end RMC

/-! ## Helper lemmas -/

lemma pyStrip_of_verdict {v : String}
    (h : v = "Pass" ∨ v = "Fail" ∨ v = "NA") :
    (pyStrip v == "Pass") = (v == "Pass") := by
  rcases h with rfl | rfl | rfl <;> decide

lemma all_pass_iff (l : List String)
    (hl : ∀ v ∈ l, v = "Pass" ∨ v = "Fail" ∨ v = "NA") :
    ((l.all fun v => pyStrip v == "Pass") = true ↔ ∀ v ∈ l, v = "Pass") := by
  rw [List.all_eq_true]
  constructor
  · intro h v hv
    rcases hl v hv with rfl | rfl | rfl
    · rfl
    · exact absurd (h _ hv) (by decide)
    · exact absurd (h _ hv) (by decide)
  · intro h v hv
    rw [h v hv]
    decide

lemma all_set_pass_false (l : List String) (i : Nat) (w : String)
    (hi : i < l.length) (hw : (pyStrip w == "Pass") = false) :
    ((l.set i w).all fun v => pyStrip v == "Pass") = false := by
  by_contra h
  rw [Bool.not_eq_false] at h
  have hi2 : i < (l.set i w).length := by simpa using hi
  have hmem := List.all_eq_true.mp h ((l.set i w)[i]) (List.getElem_mem _)
  rw [List.getElem_set_self _] at hmem
  rw [hw] at hmem
  exact Bool.noConfusion hmem

lemma map_str_norm (l : List String) :
    (l.map Cell.str).map norm_str = l.map pyStrip := by
  rw [List.map_map]
  rfl

lemma score_producer_range (v : Cell) :
    GCS.score_producer v = "Pass" ∨ GCS.score_producer v = "Fail" := by
  unfold GCS.score_producer
  split_ifs <;> simp

lemma score_consumer_range (a p : Cell) :
    GCS.score_consumer a p = "Pass" ∨ GCS.score_consumer a p = "Fail" := by
  unfold GCS.score_consumer
  split_ifs <;> simp

lemma score_classic_range (v : Cell) :
    GCS.score_comparator_classic_value v = "Pass" ∨
    GCS.score_comparator_classic_value v = "Fail" ∨
    GCS.score_comparator_classic_value v = "NA" := by
  unfold GCS.score_comparator_classic_value
  split_ifs <;> simp

lemma score_json_range (v : Cell) :
    GCS.score_comparator_json_status v = "Pass" ∨
    GCS.score_comparator_json_status v = "Fail" := by
  unfold GCS.score_comparator_json_status
  split_ifs <;> simp

lemma score_all_yes_range (r : Row) (ic : String) :
    GCS.score_all_yes r ic = "Pass" ∨ GCS.score_all_yes r ic = "Fail" := by
  unfold GCS.score_all_yes
  split_ifs <;> simp

lemma nr_go_cons_nonflag (row : Row) (c : String) (rest : List String)
    (saw : Bool)
    (hf : GCS.is_flag_value (pyLower (norm_str (rowGet row c))) = false) :
    GCS.score_newrelic_go row (c :: rest) saw =
      GCS.score_newrelic_go row rest saw := by
  simp only [GCS.score_newrelic_go, hf, Bool.not_false, if_true]

lemma nr_go_cons_neg (row : Row) (c : String) (rest : List String)
    (saw : Bool)
    (hf : GCS.is_flag_value (pyLower (norm_str (rowGet row c))) = true)
    (hneg : (is_failed_pattern (.str (pyLower (norm_str (rowGet row c)))) ||
      GCS.NR_NEG.contains (pyLower (norm_str (rowGet row c)))) = true) :
    GCS.score_newrelic_go row (c :: rest) saw = "Fail" := by
  simp only [GCS.score_newrelic_go, hf, hneg, Bool.not_true, if_true]
  rfl

lemma nr_go_cons_pos (row : Row) (c : String) (rest : List String)
    (saw : Bool)
    (hf : GCS.is_flag_value (pyLower (norm_str (rowGet row c))) = true)
    (hneg : (is_failed_pattern (.str (pyLower (norm_str (rowGet row c)))) ||
      GCS.NR_NEG.contains (pyLower (norm_str (rowGet row c)))) = false)
    (hpos : GCS.POS_TOKENS.contains (pyLower (norm_str (rowGet row c))) =
      true) :
    GCS.score_newrelic_go row (c :: rest) saw =
      GCS.score_newrelic_go row rest true := by
  simp only [GCS.score_newrelic_go, hf, hneg, hpos, Bool.not_true, if_true]
  rfl

lemma nr_go_cons_other (row : Row) (c : String) (rest : List String)
    (saw : Bool)
    (hf : GCS.is_flag_value (pyLower (norm_str (rowGet row c))) = true)
    (hneg : (is_failed_pattern (.str (pyLower (norm_str (rowGet row c)))) ||
      GCS.NR_NEG.contains (pyLower (norm_str (rowGet row c)))) = false)
    (hpos : GCS.POS_TOKENS.contains (pyLower (norm_str (rowGet row c))) =
      false) :
    GCS.score_newrelic_go row (c :: rest) saw =
      GCS.score_newrelic_go row rest saw := by
  simp only [GCS.score_newrelic_go, hf, hneg, hpos, Bool.not_true, if_true]
  rfl

lemma nr_go_range (row : Row) (cols : List String) :
    ∀ saw, GCS.score_newrelic_go row cols saw = "Pass" ∨
      GCS.score_newrelic_go row cols saw = "Fail" := by
  induction cols with
  | nil =>
    intro saw
    cases saw
    · exact Or.inr rfl
    · exact Or.inl rfl
  | cons c rest ih =>
    intro saw
    by_cases hf : GCS.is_flag_value (pyLower (norm_str (rowGet row c))) = true
    · by_cases hneg : (is_failed_pattern (.str (pyLower (norm_str
          (rowGet row c)))) ||
          GCS.NR_NEG.contains (pyLower (norm_str (rowGet row c)))) = true
      · rw [nr_go_cons_neg row c rest saw hf hneg]
        exact Or.inr rfl
      · rw [Bool.not_eq_true] at hneg
        by_cases hpos : GCS.POS_TOKENS.contains
            (pyLower (norm_str (rowGet row c))) = true
        · rw [nr_go_cons_pos row c rest saw hf hneg hpos]
          exact ih true
        · rw [Bool.not_eq_true] at hpos
          rw [nr_go_cons_other row c rest saw hf hneg hpos]
          exact ih saw
    · rw [Bool.not_eq_true] at hf
      rw [nr_go_cons_nonflag row c rest saw hf]
      exact ih saw

lemma nr_go_all_nonflag (row : Row) (cols : List String) :
    ∀ saw, (∀ c ∈ cols,
      GCS.is_flag_value (pyLower (norm_str (rowGet row c))) = false) →
      GCS.score_newrelic_go row cols saw =
        (if saw then "Pass" else "Fail") := by
  induction cols with
  | nil =>
    intro saw _
    rfl
  | cons c rest ih =>
    intro saw h
    rw [nr_go_cons_nonflag row c rest saw (h c (List.mem_cons_self _ _))]
    exact ih saw (fun x hx => h x (List.mem_cons_of_mem _ hx))

lemma nr_go_pass_exists (row : Row) (cols : List String) :
    ∀ saw, GCS.score_newrelic_go row cols saw = "Pass" →
      saw = true ∨ ∃ c ∈ cols,
        GCS.POS_TOKENS.contains (pyLower (norm_str (rowGet row c))) = true := by
  induction cols with
  | nil =>
    intro saw h
    cases saw
    · rw [show GCS.score_newrelic_go row [] false = "Fail" from rfl] at h
      exact absurd h (by decide)
    · exact Or.inl rfl
  | cons c rest ih =>
    intro saw h
    by_cases hf : GCS.is_flag_value (pyLower (norm_str (rowGet row c))) = true
    · by_cases hneg : (is_failed_pattern (.str (pyLower (norm_str
          (rowGet row c)))) ||
          GCS.NR_NEG.contains (pyLower (norm_str (rowGet row c)))) = true
      · rw [nr_go_cons_neg row c rest saw hf hneg] at h
        exact absurd h (by decide)
      · rw [Bool.not_eq_true] at hneg
        by_cases hpos : GCS.POS_TOKENS.contains
            (pyLower (norm_str (rowGet row c))) = true
        · exact Or.inr ⟨c, List.mem_cons_self _ _, hpos⟩
        · rw [Bool.not_eq_true] at hpos
          rw [nr_go_cons_other row c rest saw hf hneg hpos] at h
          rcases ih saw h with hsaw | ⟨x, hx, hpx⟩
          · exact Or.inl hsaw
          · exact Or.inr ⟨x, List.mem_cons_of_mem _ hx, hpx⟩
    · rw [Bool.not_eq_true] at hf
      rw [nr_go_cons_nonflag row c rest saw hf] at h
      rcases ih saw h with hsaw | ⟨x, hx, hpx⟩
      · exact Or.inl hsaw
      · exact Or.inr ⟨x, List.mem_cons_of_mem _ hx, hpx⟩

lemma nr_go_neg_fail (row : Row) (cols : List String) :
    ∀ saw, (∃ c ∈ cols,
      GCS.is_flag_value (pyLower (norm_str (rowGet row c))) = true ∧
      (is_failed_pattern (.str (pyLower (norm_str (rowGet row c)))) ||
        GCS.NR_NEG.contains (pyLower (norm_str (rowGet row c)))) = true) →
      GCS.score_newrelic_go row cols saw = "Fail" := by
  induction cols with
  | nil =>
    intro saw h
    obtain ⟨c, hc, _⟩ := h
    exact absurd hc (List.not_mem_nil c)
  | cons c rest ih =>
    intro saw h
    obtain ⟨x, hx, hxf, hxn⟩ := h
    rcases List.mem_cons.mp hx with rfl | hx'
    · exact nr_go_cons_neg row x rest saw hxf hxn
    · by_cases hf : GCS.is_flag_value (pyLower (norm_str (rowGet row c))) = true
      · by_cases hneg : (is_failed_pattern (.str (pyLower (norm_str
            (rowGet row c)))) ||
            GCS.NR_NEG.contains (pyLower (norm_str (rowGet row c)))) = true
        · exact nr_go_cons_neg row c rest saw hf hneg
        · rw [Bool.not_eq_true] at hneg
          by_cases hpos : GCS.POS_TOKENS.contains
              (pyLower (norm_str (rowGet row c))) = true
          · rw [nr_go_cons_pos row c rest saw hf hneg hpos]
            exact ih true ⟨_, hx', hxf, hxn⟩
          · rw [Bool.not_eq_true] at hpos
            rw [nr_go_cons_other row c rest saw hf hneg hpos]
            exact ih saw ⟨_, hx', hxf, hxn⟩
      · rw [Bool.not_eq_true] at hf
        rw [nr_go_cons_nonflag row c rest saw hf]
        exact ih saw ⟨_, hx', hxf, hxn⟩

lemma toLower_ne_upper_Y (c : Char) : Char.toLower c ≠ 'Y' := by
  intro h
  simp only [Char.toLower] at h
  split at h
  · rename_i hcond
    obtain ⟨h1, h2⟩ := hcond
    have hgen : ∀ n : Nat, 65 ≤ n → n ≤ 90 → Char.ofNat (n + 32) ≠ 'Y' := by
      intro n hn1 hn2
      interval_cases n <;> decide
    exact hgen c.toNat h1 h2 h
  · rename_i hcond
    rw [h] at hcond
    exact hcond (by decide)

lemma pyLower_ne_Yes (s : String) : pyLower s ≠ "Yes" := by
  intro h
  have hdata : s.data.map Char.toLower = ("Yes").data := congrArg String.data h
  rw [show ("Yes").data = ['Y', 'e', 's'] from by decide] at hdata
  rw [List.map_eq_cons_iff] at hdata
  obtain ⟨c, l1, _, hc, _⟩ := hdata
  exact toLower_ne_upper_Y c hc

/-! ## Claims -/

/-- C1: the final verdict is Pass iff every per-source verdict for the
entity (the base/producer source's included, it heads the status list)
equals Pass; any Fail or NA yields Fail, and flipping any single source's
verdict from Pass to Fail or NA flips the final verdict to Fail.  Proved
for the aggregation of report_maker.py (`RM.final_verdict`, lines 277-280)
and of report_maker_consolidated.py (`RMC.final_result`, lines 193-198). -/
theorem C1_final_verdict_iff_all_pass (vs : List String)
    (hrange : ∀ v ∈ vs, v = "Pass" ∨ v = "Fail" ∨ v = "NA")
    (hne : vs ≠ []) :
    (RM.final_verdict vs = "Pass" ↔ ∀ v ∈ vs, v = "Pass") ∧
    (RMC.final_result (vs.map Cell.str) = "Pass" ↔ ∀ v ∈ vs, v = "Pass") ∧
    (∀ (i : Nat) (w : String), i < vs.length → (w = "Fail" ∨ w = "NA") →
      RM.final_verdict (vs.set i w) = "Fail" ∧
      RMC.final_result ((vs.set i w).map Cell.str) = "Fail") := by
  have hwne : ∀ w : String, w = "Fail" ∨ w = "NA" →
      (pyStrip w == "Pass") = false := by
    rintro w (rfl | rfl) <;> decide
  refine ⟨?_, ?_, ?_⟩
  · unfold RM.final_verdict
    split
    · rename_i h
      simpa using (all_pass_iff vs hrange).mp h
    · rename_i h
      rw [Bool.not_eq_true] at h
      constructor
      · intro hcontra; exact absurd hcontra (by decide)
      · intro hall
        exact absurd ((all_pass_iff vs hrange).mpr hall)
          (by rw [h]; exact Bool.noConfusion)
  · unfold RMC.final_result
    rw [map_str_norm]
    have hiff : ((vs.map pyStrip).all fun v => v == "Pass") =
        (vs.all fun v => pyStrip v == "Pass") := by
      rw [List.all_map]
      rfl
    have hempty : (vs.map pyStrip).isEmpty = false := by
      cases vs with
      | nil => exact absurd rfl hne
      | cons a l => rfl
    rw [hempty, hiff]
    split
    · rename_i h
      rw [Bool.not_false, Bool.true_and] at h
      simpa using (all_pass_iff vs hrange).mp h
    · rename_i h
      rw [Bool.not_false, Bool.true_and, Bool.not_eq_true] at h
      constructor
      · intro hcontra; exact absurd hcontra (by decide)
      · intro hall
        exact absurd ((all_pass_iff vs hrange).mpr hall)
          (by rw [h]; exact Bool.noConfusion)
  · intro i w hi hw
    have hallf := all_set_pass_false vs i w hi (hwne w hw)
    constructor
    · unfold RM.final_verdict
      rw [hallf]
      rfl
    · unfold RMC.final_result
      rw [map_str_norm]
      have hiff : (((vs.set i w).map pyStrip).all fun v => v == "Pass") =
          ((vs.set i w).all fun v => pyStrip v == "Pass") := by
        rw [List.all_map]
        rfl
      rw [hiff, hallf]
      simp

/-- C1 witness: the aggregation behaves as claimed on the concrete status
list ["Pass", "Pass", "NA"]. -/
theorem C1_witness :
    (RM.final_verdict ["Pass", "Pass", "NA"] = "Pass" ↔
      ∀ v ∈ (["Pass", "Pass", "NA"] : List String), v = "Pass") ∧
    (RMC.final_result ((["Pass", "Pass", "NA"] : List String).map Cell.str) =
        "Pass" ↔ ∀ v ∈ (["Pass", "Pass", "NA"] : List String), v = "Pass") ∧
    (∀ (i : Nat) (w : String),
      i < (["Pass", "Pass", "NA"] : List String).length →
      (w = "Fail" ∨ w = "NA") →
      RM.final_verdict ((["Pass", "Pass", "NA"] : List String).set i w) =
        "Fail" ∧
      RMC.final_result (((["Pass", "Pass", "NA"] : List String).set i w).map
        Cell.str) = "Fail") :=
  C1_final_verdict_iff_all_pass ["Pass", "Pass", "NA"] (by decide) (by decide)

/-- C2 counterexample: report_maker.py's `score_consumer` (one of the two
implementations the claim cites) returns NA, not Fail, on the row with
Applicable_For_Consumer_Topic=No and Posted_To_Consumer_Topic=No, so the
claim as stated is false for that variant. -/
theorem C2_counterexample :
    RM.score_consumer (Cell.str "No") (Cell.str "No") = "NA" ∧
    RM.score_consumer (Cell.str "No") (Cell.str "No") ≠ "Fail" := by
  decide

/-- C2 amended: in the GCS variant (report_maker_gcs.py `score_consumer`),
whenever the applicable flag normalizes to Negative or NotApplicable the
per-source verdict is Fail, never NA — in particular the row with
Applicable_For_Consumer_Topic=No and Posted_To_Consumer_Topic=No scores
Fail there; report_maker.py instead scores NA for a Negative applicable
flag. -/
theorem C2_consumer_negative_fails (applicable posted : Cell)
    (h : GCS.is_no applicable = true ∨ GCS.is_na applicable = true) :
    GCS.score_consumer applicable posted = "Fail" := by
  unfold GCS.score_consumer
  rcases h with h | h <;> simp [h]

/-- C2 witness: the amended rule at the concrete
Applicable=No, Posted=No row. -/
theorem C2_witness :
    (GCS.is_no (Cell.str "No") = true ∨ GCS.is_na (Cell.str "No") = true) ∧
    GCS.score_consumer (Cell.str "No") (Cell.str "No") = "Fail" :=
  ⟨Or.inl (by decide),
    C2_consumer_negative_fails (Cell.str "No") (Cell.str "No")
      (Or.inl (by decide))⟩

/-- C7 counterexample: report_maker.py's `is_yes` (one of the two
normalizers the claim cites) rejects "pass" and "ok", and its Producer
scorer marks a cell holding "pass" as Fail, so the claim as stated is
false for that variant. -/
theorem C7_counterexample :
    RM.is_yes (Cell.str "pass") = false ∧
    RM.is_yes (Cell.str "ok") = false ∧
    RM.score_producer (Cell.str "pass") = "Fail" := by
  decide

/-- C7 amended: in the GCS variant (report_maker_gcs.py `is_yes`), a cell
is Positive exactly when its trimmed, lower-cased form is one of
yes, y, true, 1, pass, passed, success, ok (the extra literal "Yes" in the
source's `POS_TOKENS` is unreachable after lower-casing); "Yes", "YES" and
" yes " are all Positive, and the GCS Producer scorer passes "pass" and
"ok".  report_maker.py's normalizer accepts only yes, y, true, 1. -/
theorem C7_is_yes_iff (v : Cell) :
    (GCS.is_yes v = true ↔
      pyLower (norm_str v) ∈
        (["yes", "y", "true", "1", "pass", "passed", "success", "ok"] :
          List String)) ∧
    GCS.is_yes (Cell.str "Yes") = true ∧
    GCS.is_yes (Cell.str "YES") = true ∧
    GCS.is_yes (Cell.str " yes ") = true ∧
    GCS.score_producer (Cell.str "pass") = "Pass" ∧
    GCS.score_producer (Cell.str "ok") = "Pass" := by
  refine ⟨?_, by decide, by decide, by decide, by decide, by decide⟩
  unfold GCS.is_yes GCS.POS_TOKENS
  rw [List.elem_iff]
  have hne := pyLower_ne_Yes (norm_str v)
  constructor
  · intro h
    simp only [List.mem_cons, List.not_mem_nil, or_false] at h ⊢
    tauto
  · intro h
    simp only [List.mem_cons, List.not_mem_nil, or_false] at h ⊢
    tauto


/-- C9: in the GCS variant's Telemetry/New Relic scorer
(`GCS.score_newrelic_row`), a matched row none of whose non-identifier
columns holds a flag-shaped value (one accepted by `_is_flag_value`)
scores Fail rather than a vacuous Pass; a Pass requires at least one
column whose normalized value is a positive token; and any flag-shaped
column that is an explicit failure marker or a negative/NA token forces
Fail. -/
theorem C9_newrelic_no_vacuous_pass (row : Row) (id_col : String) :
    ((∀ c ∈ non_id_columns row id_col,
        GCS.is_flag_value (pyLower (norm_str (rowGet row c))) = false) →
      GCS.score_newrelic_row row id_col = "Fail") ∧
    (GCS.score_newrelic_row row id_col = "Pass" →
      ∃ c ∈ non_id_columns row id_col,
        GCS.POS_TOKENS.contains (pyLower (norm_str (rowGet row c))) = true) ∧
    ((∃ c ∈ non_id_columns row id_col,
        GCS.is_flag_value (pyLower (norm_str (rowGet row c))) = true ∧
        (is_failed_pattern (.str (pyLower (norm_str (rowGet row c)))) ||
          GCS.NR_NEG.contains (pyLower (norm_str (rowGet row c)))) = true) →
      GCS.score_newrelic_row row id_col = "Fail") := by
  refine ⟨?_, ?_, ?_⟩
  · intro h
    unfold GCS.score_newrelic_row
    rw [nr_go_all_nonflag row (non_id_columns row id_col) false h]
    rfl
  · intro h
    unfold GCS.score_newrelic_row at h
    rcases nr_go_pass_exists row (non_id_columns row id_col) false h with
      hsaw | hex
    · exact absurd hsaw (by decide)
    · exact hex
  · intro h
    unfold GCS.score_newrelic_row
    exact nr_go_neg_fail row (non_id_columns row id_col) false h

/-- C9 witness: a matched row whose only non-identifier column holds
unrecognized free text scores Fail, via the first conjunct of the claim's
theorem. -/
theorem C9_witness :
    GCS.score_newrelic_row
      [("Invoice No.", Cell.str "INV1"), ("note", Cell.str "free text")]
      "Invoice No." = "Fail" :=
  (C9_newrelic_no_vacuous_pass
    [("Invoice No.", Cell.str "INV1"), ("note", Cell.str "free text")]
    "Invoice No.").1 (by decide)

/-- C10: every normalizer and Kind Scorer of the GCS variant is total over
arbitrary cell values: `norm_str` sends the missing value to the empty
string, and `eval_row_for_kind` returns a verdict in
\x7bPass, Fail, NA\x7d for every kind string, optional row and optional
identifier column (the embedding is a total function, so no call can
raise). -/
theorem C10_scorers_total (kind : String) (row : Option Row)
    (id_col : Option String) :
    norm_str Cell.na = "" ∧
    ((GCS.eval_row_for_kind kind row id_col).1 = "Pass" ∨
     (GCS.eval_row_for_kind kind row id_col).1 = "Fail" ∨
     (GCS.eval_row_for_kind kind row id_col).1 = "NA") := by
  refine ⟨rfl, ?_⟩
  match row, id_col with
  | none, _ => exact Or.inr (Or.inl rfl)
  | some r, none => exact Or.inr (Or.inl rfl)
  | some r, some ic =>
    unfold GCS.eval_row_for_kind
    by_cases h1 : kind = "producer"
    · simp only [h1, if_true]
      rcases score_producer_range (match GCS.find_col r (fun c =>
          pyStartsWith (pyLower c) "posted_to_producer_topic") with
        | some c => rowGet r c
        | none => .na) with h | h
      · exact Or.inl h
      · exact Or.inr (Or.inl h)
    · simp only [h1, if_false]
      by_cases h2 : kind = "consumer"
      · simp only [h2, if_true]
        rcases score_consumer_range (match GCS.find_col r (fun c =>
            strContainsSub (pyLower c) "applicable_for_consumer_topic") with
          | some c => rowGet r c
          | none => .na) (match GCS.find_col r (fun c =>
            strContainsSub (pyLower c) "posted_to_consumer_topic") with
          | some c => rowGet r c
          | none => .na) with h | h
        · exact Or.inl h
        · exact Or.inr (Or.inl h)
      · simp only [h2, if_false]
        by_cases h3 : kind = "comparator"
        · simp only [h3, if_true]
          cases hcc : GCS.find_col r (fun c =>
              strContainsSub (pyLower c) "expected" &&
              strContainsSub (pyLower c) "observed" &&
              strContainsSub (pyLower c) "match") with
          | some cc =>
            rcases score_classic_range (rowGet r cc) with h | h | h
            · exact Or.inl h
            · exact Or.inr (Or.inl h)
            · exact Or.inr (Or.inr h)
          | none =>
            rcases score_all_yes_range r ic with h | h
            · exact Or.inl h
            · exact Or.inr (Or.inl h)
        · simp only [h3, if_false]
          by_cases h4 : kind = "json_comparator" ∨ kind = "file_comparator"
          · simp only [h4, if_true]
            cases hsc : GCS.find_col r (fun c => pyLower c == "status") with
            | some sc =>
              rcases score_json_range (rowGet r sc) with h | h
              · exact Or.inl h
              · exact Or.inr (Or.inl h)
            | none =>
              rcases score_all_yes_range r ic with h | h
              · exact Or.inl h
              · exact Or.inr (Or.inl h)
          · simp only [h4, if_false]
            rcases nr_go_range r (non_id_columns r ic) false with h | h
            · exact Or.inl (by unfold GCS.score_newrelic_row at *; exact h)
            · exact Or.inr (Or.inl (by
                unfold GCS.score_newrelic_row at *; exact h))


lemma find?_first_split {α : Type} (p : α → Bool) (l : List α) (x : α)
    (h : l.find? p = some x) :
    p x = true ∧ ∃ pre suf, l = pre ++ x :: suf ∧ ∀ y ∈ pre, p y = false := by
  induction l with
  | nil => exact absurd h (by simp)
  | cons a rest ih =>
    by_cases ha : p a = true
    · rw [List.find?_cons_of_pos _ ha] at h
      obtain rfl : a = x := by injection h
      refine ⟨ha, [], rest, rfl, ?_⟩
      intro y hy
      exact absurd hy (List.not_mem_nil y)
    · rw [Bool.not_eq_true] at ha
      rw [List.find?_cons_of_neg _ (by simp [ha])] at h
      obtain ⟨hpx, pre, suf, hsplit, hpre⟩ := ih h
      refine ⟨hpx, a :: pre, suf, by rw [hsplit, List.cons_append], ?_⟩
      intro y hy
      rcases List.mem_cons.mp hy with rfl | hy2
      · exact ha
      · exact hpre y hy2

/-- C8: the reconciliation is deterministic — `RM.consolidate`, the full
embedding of report_maker.py's engine (entity list, per-source scoring,
final verdicts, reason rendering, row and column order), is a pure
function of the producer dataset and the configured files, so equal
inputs always yield the identical ReportTable. -/
theorem C8_consolidate_deterministic (p1 p2 : Option DataFrame)
    (f1 f2 : List (String × Option DataFrame))
    (hp : p1 = p2) (hf : f1 = f2) :
    RM.consolidate p1 f1 = RM.consolidate p2 f2 := by
  subst hp
  subst hf
  rfl

/-- C8 witness: two runs on one concrete configuration produce the same
report. -/
theorem C8_witness :
    RM.consolidate
      (some ⟨["Invoice No.", "Posted_To_Producer_Topic?"],
        [[("Invoice No.", Cell.str "INV1"),
          ("Posted_To_Producer_Topic?", Cell.str "Yes")]]⟩)
      [("consumer_file", none)] =
    RM.consolidate
      (some ⟨["Invoice No.", "Posted_To_Producer_Topic?"],
        [[("Invoice No.", Cell.str "INV1"),
          ("Posted_To_Producer_Topic?", Cell.str "Yes")]]⟩)
      [("consumer_file", none)] :=
  C8_consolidate_deterministic _ _ _ _ rfl rfl

/-- C3 counterexample: in report_maker.py the (entity, source) cell for an
entity absent from the source dataset is Fail with NO diagnostic reason
attached (the source comments "NO diagnostic reason appended"), so the
claim's universally attached diagnostic is false as stated.  Concretely,
INV3 is missing from the consumer dataset below and the cell carries an
empty reason list. -/
theorem C3_counterexample :
    RM.source_cell
      (some ⟨["Invoice No.", "Applicable_For_Consumer_Topic"],
        [[("Invoice No.", Cell.str "INV1"),
          ("Applicable_For_Consumer_Topic", Cell.str "Yes")]]⟩)
      (some "Invoice No.") "consumer" "INV3" = ("Fail", []) := by
  decide

/-- C3 amended: an unreadable source, a missing identifier column, and a
missing row always score Fail, never NA, in both engines; the fixed
diagnostic naming the condition (and, for a missing row, naming the entity
and the source key) is attached in the GCS per-file variant
(`GCS.buildReportCell`), while report_maker.py's consolidate
(`RM.source_cell`) attaches no reason for these conditions. -/
theorem C3_missing_data_fail (key kind inv : String) (d : DataFrame) :
    (GCS.buildReportCell key kind none inv =
      ("Fail", ["File missing or unreadable"])) ∧
    (pick_id_col d.cols = none →
      GCS.buildReportCell key kind (some d) inv =
        ("Fail", ["ID column not found"])) ∧
    (∀ ic, pick_id_col d.cols = some ic →
      (∀ r ∈ d.rows, GCS.normId (rowGet r ic) ≠ inv) →
      GCS.buildReportCell key kind (some d) inv =
        ("Fail", ["Invoice " ++ inv ++ " missing in " ++ key])) ∧
    (∀ invc, RM.source_cell none invc kind inv = ("Fail", [])) ∧
    (∀ ic, d.cols.contains ic = true →
      RM.first_row_for_id d ic inv = none →
      RM.source_cell (some d) (some ic) kind inv = ("Fail", [])) := by
  refine ⟨rfl, ?_, ?_, ?_, ?_⟩
  · intro h
    simp only [GCS.buildReportCell, h]
  · intro ic hic hnone
    have hfind : d.rows.find? (fun r => GCS.normId (rowGet r ic) == inv) =
        none := by
      rw [List.find?_eq_none]
      intro r hr heq
      exact hnone r hr (by simpa using heq)
    simp only [GCS.buildReportCell, hic, hfind]
  · intro invc
    cases invc <;> rfl
  · intro ic hic hnone
    simp only [RM.source_cell, hic, hnone, Bool.not_true, if_false]
    rfl

/-- C3 witness: the amended rule at concrete inputs — a missing file and a
missing row each produce Fail with the fixed diagnostic in the GCS
variant. -/
theorem C3_witness :
    GCS.buildReportCell "consumer_file" "consumer" none "INV3" =
      ("Fail", ["File missing or unreadable"]) ∧
    GCS.buildReportCell "consumer_file" "consumer"
      (some ⟨["Invoice No."], [[("Invoice No.", Cell.str "INV1")]]⟩) "INV3" =
      ("Fail", ["Invoice " ++ "INV3" ++ " missing in " ++ "consumer_file"]) :=
  ⟨(C3_missing_data_fail "consumer_file" "consumer" "INV3"
      ⟨["Invoice No."], [[("Invoice No.", Cell.str "INV1")]]⟩).1,
    (C3_missing_data_fail "consumer_file" "consumer" "INV3"
      ⟨["Invoice No."], [[("Invoice No.", Cell.str "INV1")]]⟩).2.2.1
      "Invoice No." (by decide) (by decide)⟩

/-- C5 counterexample: report_maker.py's `first_row_for_id` (one of the
two lookups the claim cites) uses raw, untrimmed pandas equality, so an
identifier differing only in surrounding whitespace does NOT match —
against the claim, the lookup of "INV1" finds nothing in a dataset whose
only row holds "INV1 " — while the GCS lookup finds that row. -/
theorem C5_counterexample :
    RM.first_row_for_id
      ⟨["Invoice No."], [[("Invoice No.", Cell.str "INV1 ")]]⟩
      "Invoice No." "INV1" = none ∧
    GCS.first_row_for_id
      ⟨["Invoice No."], [[("Invoice No.", Cell.str "INV1 ")]]⟩
      "Invoice No." "INV1" =
      some [("Invoice No.", Cell.str "INV1 ")] := by
  decide

/-- C5 amended: in the GCS variant (`GCS.first_row_for_id`), the selected
row is the first row whose identifier cell — rendered as a string and
trimmed — equals the trimmed entity identifier, with exact string equality
(no case folding): whitespace-padded and numeric-vs-string identifiers
match; report_maker.py's lookup instead uses raw untrimmed equality. -/
theorem C5_trimmed_exact_lookup (df : DataFrame) (c v : String) :
    (∀ r, GCS.first_row_for_id df c v = some r →
      GCS.normId (rowGet r c) = pyStrip v ∧
      ∃ pre suf, df.rows = pre ++ r :: suf ∧
        ∀ r2 ∈ pre, GCS.normId (rowGet r2 c) ≠ pyStrip v) ∧
    (GCS.first_row_for_id df c v = none ↔
      ∀ r ∈ df.rows, GCS.normId (rowGet r c) ≠ pyStrip v) := by
  constructor
  · intro r h
    obtain ⟨hp, pre, suf, hsplit, hpre⟩ :=
      find?_first_split (fun r => GCS.normId (rowGet r c) == pyStrip v)
        df.rows r h
    refine ⟨by simpa using hp, pre, suf, hsplit, ?_⟩
    intro r2 hr2 heq
    have := hpre r2 hr2
    rw [heq] at this
    simp at this
  · rw [show GCS.first_row_for_id df c v =
        df.rows.find? (fun r => GCS.normId (rowGet r c) == pyStrip v) from rfl,
      List.find?_eq_none]
    constructor
    · intro h r hr heq
      exact h r hr (by simpa using heq)
    · intro h r hr heq
      exact h r hr (by simpa using heq)

/-- C5 witness: the amended lookup at concrete inputs — no case folding
(a lower-cased identifier does not match), via the theorem's
characterization of the empty lookup. -/
theorem C5_witness :
    GCS.first_row_for_id
      ⟨["Invoice No."], [[("Invoice No.", Cell.str "inv1")]]⟩
      "Invoice No." "INV1" = none :=
  (C5_trimmed_exact_lookup
    ⟨["Invoice No."], [[("Invoice No.", Cell.str "inv1")]]⟩
    "Invoice No." "INV1").2.mpr (by decide)


lemma invoices_count (rows : List Row) (c s : String) :
    ((((rows.map (fun r => rowGet r c)).filter
      (fun x => x ≠ Cell.na)).map pyStr).count s) =
    ((rows.map (fun r => rowGet r c)).filter
      (fun x => x ≠ Cell.na && pyStr x == s)).length := by
  have h0 : ∀ (l : List String),
      l.count s = l.countP (fun x => x == s) := fun l => rfl
  rw [h0, List.countP_map, List.countP_filter,
    ← List.countP_eq_length_filter]
  congr 1
  funext a
  simp [Bool.and_comm]

/-- C6 counterexample: the entity list
`df_prod[id_col].dropna().astype(str)` does not collapse duplicates — a
base dataset whose identifier column holds "INV1" twice yields the entity
list ["INV1", "INV1"] and a consolidated report with two rows, where the
claim demands exactly one row per distinct identifier. -/
theorem C6_counterexample :
    RM.invoicesOf
      ⟨["Invoice No."], [[("Invoice No.", Cell.str "INV1")],
        [("Invoice No.", Cell.str "INV1")]]⟩ "Invoice No." =
      ["INV1", "INV1"] ∧
    (RM.consolidate (some ⟨["Invoice No."],
        [[("Invoice No.", Cell.str "INV1")],
         [("Invoice No.", Cell.str "INV1")]]⟩) []).map
      (fun t => t.rows.length) = Except.ok 2 :=
  ⟨rfl, rfl⟩

/-- C6 amended: the canonical entity list is the base dataset's identifier
column in row order with missing (NaN) identifiers skipped and every
surviving cell rendered by `str` — duplicates are retained, each
identifier appearing in the list exactly as often as among the column's
non-missing cells, and the consolidated report has one row per occurrence
(its row count equals the entity list's length), not one per distinct
identifier. -/
theorem C6_entity_list_keeps_duplicates (df : DataFrame) (s : String)
    (files : List (String × Option DataFrame)) :
    (∀ c, (RM.invoicesOf df c).count s =
      ((df.rows.map (fun r => rowGet r c)).filter
        (fun x => x ≠ Cell.na && pyStr x == s)).length) ∧
    (∀ t, RM.consolidate (some df) files = Except.ok t →
      ∃ ic, pick_id_col df.cols = some ic ∧
        t.rows.length = (RM.invoicesOf df ic).length) := by
  constructor
  · intro c
    exact invoices_count df.rows c s
  · intro t ht
    have hc : RM.consolidate (some df) files =
        (match pick_id_col df.cols with
          | none => Except.error
              "Could not detect Tracking/Invoice column in producer file"
          | some id_col => Except.ok
              ⟨["Invoice No.", "producer"] ++ files.map Prod.fst ++
                ["Final Result", "Reason"],
                RM.consolidateRows df id_col files⟩) := rfl
    rw [hc] at ht
    cases hic : pick_id_col df.cols with
    | none =>
      rw [hic] at ht
      have ht2 : (Except.error
          "Could not detect Tracking/Invoice column in producer file" :
            Except String RM.ReportTable) =
          Except.ok t := ht
      exact absurd ht2 (by simp)
    | some ic =>
      rw [hic] at ht
      have ht2 : Except.ok
          (⟨["Invoice No.", "producer"] ++ files.map Prod.fst ++
            ["Final Result", "Reason"],
            RM.consolidateRows df ic files⟩ : RM.ReportTable) =
          Except.ok t := ht
      refine ⟨ic, rfl, ?_⟩
      have h3 : t = ⟨["Invoice No.", "producer"] ++ files.map Prod.fst ++
          ["Final Result", "Reason"], RM.consolidateRows df ic files⟩ := by
        injection ht2 with h
        exact h.symm
      rw [h3]
      simp [RM.consolidateRows]

/-- C6 witness: the amended count and row-count facts at a concrete base
dataset holding INV1 twice and one missing identifier. -/
theorem C6_witness :
    ((RM.invoicesOf ⟨["Invoice No."],
        [[("Invoice No.", Cell.str "INV1")],
         [("Invoice No.", Cell.na)],
         [("Invoice No.", Cell.str "INV1")]]⟩ "Invoice No.").count "INV1" =
      (((⟨["Invoice No."],
        [[("Invoice No.", Cell.str "INV1")],
         [("Invoice No.", Cell.na)],
         [("Invoice No.", Cell.str "INV1")]]⟩ : DataFrame).rows.map
          (fun r => rowGet r "Invoice No.")).filter
        (fun x => x ≠ Cell.na && pyStr x == "INV1")).length) :=
  (C6_entity_list_keeps_duplicates ⟨["Invoice No."],
      [[("Invoice No.", Cell.str "INV1")],
       [("Invoice No.", Cell.na)],
       [("Invoice No.", Cell.str "INV1")]]⟩ "INV1" []).1 "Invoice No."


lemma dropWhile_ws_eq_self (l : List Char)
    (h : ∀ c, l.head? = some c → c.isWhitespace = false) :
    l.dropWhile Char.isWhitespace = l := by
  cases l with
  | nil => rfl
  | cons a l2 =>
    rw [List.dropWhile_cons, h a rfl]
    simp

lemma pyStripList_eq_self (l : List Char)
    (h1 : ∀ c, l.head? = some c → c.isWhitespace = false)
    (h2 : ∀ c, l.getLast? = some c → c.isWhitespace = false) :
    pyStripList l = l := by
  unfold pyStripList
  rw [dropWhile_ws_eq_self l h1]
  rw [dropWhile_ws_eq_self l.reverse (by
    intro c hc
    rw [List.head?_reverse] at hc
    exact h2 c hc)]
  exact List.reverse_reverse l

lemma dropCI_fail (rest : List Char) :
    GCS.dropCI ['f', 'a', 'i', 'l'] ('f' :: 'a' :: 'i' :: 'l' :: rest) =
      some rest := by
  simp [GCS.dropCI]

lemma tryCI_ed (rest : List Char) :
    GCS.tryCI ['e', 'd'] ('e' :: 'd' :: rest) = rest := by
  simp [GCS.tryCI, GCS.dropCI]

lemma dropSep_dash (rest : List Char) :
    GCS.dropSep ('-' :: rest) = rest := by
  simp [GCS.dropSep, GCS.isSepChar]

lemma dropWhile_alpha_tag (t rest : List Char)
    (ht : t.all Char.isAlpha = true) :
    (t ++ lbrace :: rest).dropWhile Char.isAlpha = lbrace :: rest := by
  induction t with
  | nil =>
    rw [List.nil_append, List.dropWhile_cons,
      show lbrace.isAlpha = false by decide]
    simp
  | cons a t2 ih =>
    rw [List.all_cons] at ht
    simp only [Bool.and_eq_true] at ht
    obtain ⟨ha, ht2⟩ := ht
    rw [List.cons_append, List.dropWhile_cons, ha]
    simp only [if_true]
    exact ih ht2

lemma captureToBrace_closed (p : List Char)
    (hp : p.contains rbrace = false) :
    GCS.captureToBrace (p ++ [rbrace]) = some p := by
  induction p with
  | nil =>
    simp [GCS.captureToBrace]
  | cons a p2 ih =>
    rw [List.contains_cons] at hp
    obtain ⟨ha, hp2⟩ := by
      rw [Bool.or_eq_false_iff] at hp
      exact hp
    rw [List.cons_append]
    unfold GCS.captureToBrace
    rw [if_neg (by
      intro heq
      rw [heq] at ha
      simp at ha)]
    rw [ih hp2]
    rfl

lemma bracedFail_marker (tag payload : List Char)
    (htag : tag.all Char.isAlpha = true)
    (hpay : payload.contains rbrace = false) :
    GCS.bracedFail (['f', 'a', 'i', 'l', 'e', 'd', '-'] ++
      (tag ++ lbrace :: (payload ++ [rbrace]))) = some payload := by
  have hshape : (['f', 'a', 'i', 'l', 'e', 'd', '-'] ++
      (tag ++ lbrace :: (payload ++ [rbrace]))) =
      'f' :: 'a' :: 'i' :: 'l' :: ('e' :: 'd' :: '-' ::
        (tag ++ lbrace :: (payload ++ [rbrace]))) := rfl
  rw [hshape]
  unfold GCS.bracedFail
  rw [dropCI_fail]
  show GCS.afterTag (GCS.dropSep (GCS.tryCI ['e', 'd'] ('e' :: 'd' :: '-' ::
    (tag ++ lbrace :: (payload ++ [rbrace]))))) = some payload
  rw [show GCS.tryCI ['e', 'd'] ('e' :: 'd' :: '-' ::
      (tag ++ lbrace :: (payload ++ [rbrace]))) = '-' ::
      (tag ++ lbrace :: (payload ++ [rbrace])) from tryCI_ed _]
  rw [dropSep_dash]
  unfold GCS.afterTag
  rw [dropWhile_alpha_tag tag _ htag]
  show (if lbrace = lbrace then GCS.captureToBrace (payload ++ [rbrace])
    else none) = some payload
  rw [if_pos rfl]
  exact captureToBrace_closed payload hpay

/-- C4: for every value of the shape `failed-<tag>\x7b<payload>\x7d` with
an alphabetic tag and a payload free of closing braces (line breaks and
any other characters allowed), the GCS `maybe_reason_from_value` extracts
exactly the trimmed payload; in particular the Scenario C value yields the
reason "amount mismatch 10 vs 12", and the comparator row holding it
scores Fail with that reason.  (A payload containing a closing brace would
make the shape's decomposition ambiguous; the regex, being non-greedy,
stops at the first closing brace.) -/
theorem C4_braced_reason (tag payload : String)
    (htag : tag.data.all Char.isAlpha = true)
    (hpay : payload.data.contains rbrace = false) :
    GCS.maybe_reason_from_value
      (Cell.str ("failed-" ++ tag ++ "\x7b" ++ payload ++ "\x7d")) =
      some (pyStrip payload) ∧
    GCS.maybe_reason_from_value
      (Cell.str "failed-cmp\x7bamount mismatch 10 vs 12\x7d") =
      some "amount mismatch 10 vs 12" ∧
    GCS.eval_row_for_kind "comparator"
      (some [("Invoice No.", Cell.str "INV3"),
        ("Expected_vs_Observed_Match",
          Cell.str "failed-cmp\x7bamount mismatch 10 vs 12\x7d")])
      (some "Invoice No.") =
      ("Fail", ["Expected_vs_Observed_Match=amount mismatch 10 vs 12"]) := by
  refine ⟨?_, by decide, by decide⟩
  have hdata : ("failed-" ++ tag ++ "\x7b" ++ payload ++ "\x7d").data =
      ['f', 'a', 'i', 'l', 'e', 'd', '-'] ++
        (tag.data ++ lbrace :: (payload.data ++ [rbrace])) := by
    rw [String.data_append, String.data_append, String.data_append,
      String.data_append]
    rw [show ("failed-").data = ['f', 'a', 'i', 'l', 'e', 'd', '-'] by decide]
    rw [show ("\x7b").data = [lbrace] by decide]
    rw [show ("\x7d").data = [rbrace] by decide]
    simp [List.append_assoc]
  have hdata2 : ("failed-" ++ tag ++ "\x7b" ++ payload ++ "\x7d").data =
      (['f', 'a', 'i', 'l', 'e', 'd', '-'] ++
        (tag.data ++ lbrace :: payload.data)) ++ [rbrace] := by
    rw [hdata]
    simp [List.append_assoc]
  have hstriplist : pyStripList
      ("failed-" ++ tag ++ "\x7b" ++ payload ++ "\x7d").data =
      ("failed-" ++ tag ++ "\x7b" ++ payload ++ "\x7d").data := by
    apply pyStripList_eq_self
    · intro c hc
      rw [hdata] at hc
      simp only [List.cons_append, List.head?_cons] at hc
      obtain rfl : 'f' = c := by injection hc
      decide
    · intro c hc
      rw [hdata2, List.getLast?_concat] at hc
      obtain rfl : rbrace = c := by injection hc
      decide
  have hstrip : pyStrip ("failed-" ++ tag ++ "\x7b" ++ payload ++ "\x7d") =
      "failed-" ++ tag ++ "\x7b" ++ payload ++ "\x7d" := by
    unfold pyStrip
    rw [hstriplist]
  have hne : ("failed-" ++ tag ++ "\x7b" ++ payload ++ "\x7d") ≠ "" := by
    intro h
    have h2 := congrArg String.data h
    rw [hdata] at h2
    simp at h2
  have hnorm : norm_str
      (Cell.str ("failed-" ++ tag ++ "\x7b" ++ payload ++ "\x7d")) =
      "failed-" ++ tag ++ "\x7b" ++ payload ++ "\x7d" := hstrip
  have hbrace : GCS.bracedFail
      ("failed-" ++ tag ++ "\x7b" ++ payload ++ "\x7d").data =
      some payload.data := by
    rw [hdata]
    exact bracedFail_marker tag.data payload.data htag hpay
  simp only [GCS.maybe_reason_from_value]
  rw [hnorm, if_neg hne, hbrace]


/-- C4 witness: the braced-diagnostic extraction at the concrete value
`failed-json\x7btimeout after 30s\x7d`, via the claim's theorem. -/
theorem C4_witness :
    GCS.maybe_reason_from_value
      (Cell.str ("failed-" ++ "json" ++ "\x7b" ++ "timeout after 30s" ++
        "\x7d")) = some (pyStrip "timeout after 30s") ∧
    GCS.maybe_reason_from_value
      (Cell.str "failed-cmp\x7bamount mismatch 10 vs 12\x7d") =
      some "amount mismatch 10 vs 12" ∧
    GCS.eval_row_for_kind "comparator"
      (some [("Invoice No.", Cell.str "INV3"),
        ("Expected_vs_Observed_Match",
          Cell.str "failed-cmp\x7bamount mismatch 10 vs 12\x7d")])
      (some "Invoice No.") =
      ("Fail", ["Expected_vs_Observed_Match=amount mismatch 10 vs 12"]) :=
  C4_braced_reason "json" "timeout after 30s" (by decide) (by decide)

end ReportGen
